import Mathlib

/-!
Verification of the SimpleBench measurement and regression-detection engine.

Shallow embedding conventions:
* `u128` timing values and sample counts become `ℕ`; `Duration` is its
  nanosecond count (`ℕ`), since `Duration::as_nanos` is exact and
  `Duration::from_nanos` takes a `u64`.
* `f64` arithmetic is modelled over `ℝ`.
* Fallible operations become `Except`/`Option`; file contents that may fail
  to parse become `Option BaselineData`.
-/

namespace SimpleBench

/-- `x as u64` applied to a `u128` value: truncation mod 2^64. -/
def u64_of_u128 (n : ℕ) : ℕ := n % 2 ^ 64

/-- `x as u64` applied to an `f64` value: truncate toward zero, saturating
at the bounds (negative values and values below one become 0). -/
noncomputable def u64_of_f64 (x : ℝ) : ℕ := min (Int.toNat ⌊x⌋) (2 ^ 64 - 1)

/-! ## statistics.rs -/

namespace Stats

/-- `statistics::mean`: arithmetic mean, 0 on the empty slice. -/
noncomputable def mean (values : List ℝ) : ℝ :=
  if values = [] then 0 else values.sum / values.length

/-- `statistics::variance`: population variance (divisor N), 0 when fewer
than two values. -/
noncomputable def variance (values : List ℝ) : ℝ :=
  if values.length < 2 then 0
  else (values.map (fun x => (x - mean values) ^ 2)).sum / values.length

/-- `statistics::standard_deviation`. -/
noncomputable def standard_deviation (values : List ℝ) : ℝ :=
  Real.sqrt (variance values)

/-- `statistics::z_score`: guarded against division by (near-)zero stddev. -/
noncomputable def z_score (value m stddev : ℝ) : ℝ :=
  if stddev < 1e-10 then 0 else (value - m) / stddev

end Stats

/-! ## lib.rs data model -/

/-- `Percentiles` (Durations as nanosecond counts). -/
structure Percentiles where
  p50 : ℕ
  p90 : ℕ
  p99 : ℕ
  mean : ℕ
  deriving DecidableEq

/-- `CpuSnapshot` (the `Instant` timestamp is dropped: it is never
serialized and never read by the code under verification). -/
structure CpuSnapshot where
  frequency_khz : Option ℕ
  temperature_millic : Option ℤ
  deriving DecidableEq

/-- `Statistics` summary of raw timing samples. -/
structure Statistics where
  mean : ℕ
  median : ℕ
  p90 : ℕ
  p99 : ℕ
  std_dev : ℝ
  variance : ℝ
  min : ℕ
  max : ℕ
  sample_count : ℕ

/-- `BenchResult` as used by `baseline.rs` (timings as nanosecond counts). -/
structure BenchResult where
  name : String
  module : String
  samples : ℕ
  percentiles : Percentiles
  iterations : ℕ
  all_timings : List ℕ
  cpu_samples : List CpuSnapshot
  warmup_ms : Option ℕ
  warmup_iterations : Option ℕ

/-- `calculate_statistics` from lib.rs: sorts a copy, takes percentile
indices `(count * p) / 100` clamped to `count - 1`, integer mean, float
variance against the float-cast integer mean. -/
noncomputable def calculate_statistics (samples : List ℕ) : Statistics :=
  let sample_count := samples.length
  if sample_count = 0 then
    { mean := 0, median := 0, p90 := 0, p99 := 0, std_dev := 0,
      variance := 0, min := 0, max := 0, sample_count := 0 }
  else
    let sorted := samples.insertionSort (· ≤ ·)
    let p50_idx := sample_count * 50 / 100
    let p90_idx := sample_count * 90 / 100
    let p99_idx := sample_count * 99 / 100
    let median := sorted.getD (min p50_idx (sample_count - 1)) 0
    let p90 := sorted.getD (min p90_idx (sample_count - 1)) 0
    let p99 := sorted.getD (min p99_idx (sample_count - 1)) 0
    let mean := samples.sum / sample_count
    let mean_f64 : ℝ := (mean : ℝ)
    let variance :=
      (samples.map (fun s => ((s : ℝ) - mean_f64) * ((s : ℝ) - mean_f64))).sum
        / (sample_count : ℝ)
    let std_dev := Real.sqrt variance
    { mean := mean, median := median, p90 := p90, p99 := p99,
      std_dev := std_dev, variance := variance,
      min := sorted.getD 0 0, max := sorted.getD (sample_count - 1) 0,
      sample_count := sample_count }

/-! ## changepoint.rs -/

/-- `BayesianCPD::student_t_likelihood`: Student's-t-like predictive
likelihood of `value` under the historical distribution, with a Gaussian
fallback (floored stddev) when the variance is near zero. -/
noncomputable def student_t_likelihood (value : ℝ) (historical : List ℝ) : ℝ :=
  if historical = [] then 0.5
  else
    let n : ℝ := (historical.length : ℝ)
    let hist_mean := Stats.mean historical
    let variance :=
      if n > 1 then (historical.map (fun x => (x - hist_mean) ^ 2)).sum / n
      else 1
    if variance < 1e-10 then
      let stddev := max (Real.sqrt variance) 1e-5
      let z := |(value - hist_mean) / stddev|
      Real.exp (-0.5 * z * z)
    else
      let df := max (n - 1) 1
      let t := (value - hist_mean) / Real.sqrt variance
      let t_squared := t * t
      (1 + t_squared / df) ^ (-(df + 1) / 2 : ℝ)

/-- `BayesianCPD::update` (the detector's only state is the hazard rate, so
it is passed directly): blends the data evidence `1 - min(likelihood, 1)`
with the hazard-rate prior, clamped to at most 1. -/
noncomputable def BayesianCPD.update (hazard_rate value : ℝ)
    (historical : List ℝ) : ℝ :=
  if historical = [] then 0
  else
    let likelihood := student_t_likelihood value historical
    let unlikelihood := 1 - min likelihood 1
    let prior_weight := hazard_rate
    let evidence_weight := unlikelihood
    min (evidence_weight * 0.7 + prior_weight * 0.3
          + evidence_weight * prior_weight * 0.5) 1

/-- `bayesian_change_point_probability`: convenience wrapper constructing a
fresh detector. -/
noncomputable def bayesian_change_point_probability (new_value : ℝ)
    (historical : List ℝ) (hazard_rate : ℝ) : ℝ :=
  BayesianCPD.update hazard_rate new_value historical

/-! ## baseline.rs -/

/-- `BaselineData`: the stored record of one benchmark run. -/
structure BaselineData where
  benchmark_name : String
  module : String
  timestamp : String
  samples : List ℕ
  statistics : Statistics
  iterations : ℕ
  machine_id : String
  cpu_samples : List CpuSnapshot
  percentiles : Option Percentiles
  was_regression : Bool

noncomputable instance : DecidableEq BaselineData := Classical.decEq _

/-- `BaselineData::from_bench_result`. `Duration::as_nanos` is the identity
on our nanosecond model; `chrono::Utc::now().to_rfc3339()` is the ambient
clock, passed in as `now`. -/
noncomputable def BaselineData.from_bench_result (result : BenchResult)
    (machine_id : String) (was_regression : Bool) (now : String) :
    BaselineData :=
  let samples := result.all_timings.map (fun d => d)
  let statistics := calculate_statistics samples
  { benchmark_name := result.name
    module := result.module
    timestamp := now
    samples := samples
    statistics := statistics
    iterations := result.iterations
    machine_id := machine_id
    cpu_samples := result.cpu_samples
    percentiles := some result.percentiles
    was_regression := was_regression }

/-- `BaselineData::to_bench_result`: stored percentiles are used when
present, otherwise reconstructed from the statistics via
`Duration::from_nanos(x as u64)`; samples are converted back the same way. -/
noncomputable def BaselineData.to_bench_result (b : BaselineData) :
    BenchResult :=
  let percentiles :=
    match b.percentiles with
    | some p => p
    | none =>
      { mean := u64_of_u128 b.statistics.mean
        p50 := u64_of_u128 b.statistics.median
        p90 := u64_of_u128 b.statistics.p90
        p99 := u64_of_u128 b.statistics.p99 }
  let all_timings := b.samples.map (fun ns => u64_of_u128 ns)
  { name := b.benchmark_name
    module := b.module
    percentiles := percentiles
    iterations := b.iterations
    samples := b.samples.length
    all_timings := all_timings
    cpu_samples := b.cpu_samples
    warmup_ms := none
    warmup_iterations := none }

/-- The collection loop of `load_recent_baselines`: walks the run files
newest-first (`runs.iter().rev()`), stops as soon as enough records are
collected, silently skips entries whose contents fail to parse
(`if let Ok(baseline) = serde_json::from_str(..)`), and skips records
flagged `was_regression`. -/
def loadRecentLoop : List (Option BaselineData) → ℕ → List BaselineData
  | _, 0 => []
  | [], _ + 1 => []
  | none :: rest, n + 1 => loadRecentLoop rest (n + 1)
  | some b :: rest, n + 1 =>
    if b.was_regression then loadRecentLoop rest (n + 1)
    else b :: loadRecentLoop rest n

/-- `BaselineManager::load_recent_baselines`, over the benchmark directory
abstracted as the chronologically sorted (filename order = timestamp order)
list of per-file parse outcomes. The loop walks the reversed (newest-first)
list, then the collected records are reversed back to oldest-first. -/
def load_recent_baselines (runs : List (Option BaselineData))
    (count : ℕ) : List BaselineData :=
  (loadRecentLoop runs.reverse count).reverse

/-- `detect_regression_with_cpd` reads the stored per-run means. -/
def histMeans (historical : List BaselineData) : List ℝ :=
  historical.map (fun b => (b.statistics.mean : ℝ))

/-- The z-critical lookup inlined in `detect_regression_with_cpd`
(one-tailed values for 90/95/99% confidence, else two-tailed 95%). -/
noncomputable def z_critical (confidence_level : ℝ) : ℝ :=
  if |confidence_level - 0.90| < 0.01 then 1.282
  else if |confidence_level - 0.95| < 0.01 then 1.645
  else if |confidence_level - 0.99| < 0.01 then 2.326
  else 1.96

/-- `Comparison` (Duration fields as nanosecond counts). -/
structure Comparison where
  current_mean : ℕ
  baseline_mean : ℕ
  percentage_change : ℝ
  baseline_count : ℕ
  z_score : Option ℝ
  confidence_interval : Option (ℝ × ℝ)
  change_probability : Option ℝ

/-- `ComparisonResult`; the Rust `bool` verdict is modelled as a `Prop`
over the real-valued statistics. -/
structure ComparisonResult where
  benchmark_name : String
  comparison : Option Comparison
  is_regression : Prop

/-- `detect_regression_with_cpd`: statistical window + Bayesian change
point detection with the tiered decision logic (extreme `|z| > 5`: needs
statistical and practical significance; strong `|z| > 2`: additionally
needs change-point confirmation; otherwise never a regression). -/
noncomputable def detect_regression_with_cpd (current : BenchResult)
    (historical : List BaselineData)
    (threshold confidence_level cp_threshold hazard_rate : ℝ) :
    ComparisonResult :=
  if historical = [] then
    { benchmark_name := current.name, comparison := none,
      is_regression := False }
  else
    let historical_means := histMeans historical
    let current_mean : ℝ := (current.percentiles.mean : ℝ)
    let hist_mean := Stats.mean historical_means
    let hist_stddev := Stats.standard_deviation historical_means
    let z_score_value := Stats.z_score current_mean hist_mean hist_stddev
    let zc := z_critical confidence_level
    let upper_bound := hist_mean + zc * hist_stddev
    let lower_bound := hist_mean - zc * hist_stddev
    let statistically_significant : Prop := current_mean > upper_bound
    let change_probability :=
      bayesian_change_point_probability current_mean historical_means
        hazard_rate
    let percentage_change := (current_mean - hist_mean) / hist_mean * 100
    let practically_significant : Prop := percentage_change > threshold
    let is_regression : Prop :=
      if |z_score_value| > 5 then
        statistically_significant ∧ practically_significant
      else if |z_score_value| > 2 then
        statistically_significant ∧ practically_significant ∧
          change_probability > cp_threshold
      else False
    { benchmark_name := current.name
      comparison := some
        { current_mean := current.percentiles.mean
          baseline_mean := u64_of_f64 hist_mean
          percentage_change := percentage_change
          baseline_count := historical.length
          z_score := some z_score_value
          confidence_interval := some (lower_bound, upper_bound)
          change_probability := some change_probability }
      is_regression := is_regression }

/-! ## measurement.rs -/

/-- `validate_measurement_params`: eager configuration validation. -/
def validate_measurement_params (samples : ℕ) : Except String Unit :=
  if samples = 0 then
    Except.error "Samples must be greater than 0"
  else if samples > 1000000 then
    Except.error
      "Samples should not exceed 1,000,000 for reasonable execution time"
  else Except.ok ()

end SimpleBench

namespace SimpleBench

/-! ## Helper lemmas -/

/-- Indexing with a default into a `≤`-sorted list is monotone below the
length. -/
theorem sorted_getD_mono {l : List ℕ} (hs : l.Sorted (· ≤ ·)) {i j : ℕ}
    (hij : i ≤ j) (hj : j < l.length) : l.getD i 0 ≤ l.getD j 0 := by
  have hi : i < l.length := lt_of_le_of_lt hij hj
  rw [List.getD_eq_getElem l 0 hi, List.getD_eq_getElem l 0 hj]
  have := hs.rel_get_of_le
    (a := ⟨i, hi⟩) (b := ⟨j, hj⟩) (by exact hij)
  simpa using this

/-- Every record collected by the loop has `was_regression = false`. -/
theorem loadRecentLoop_no_regression {b : BaselineData} :
    ∀ (l : List (Option BaselineData)) (n : ℕ),
      b ∈ loadRecentLoop l n → b.was_regression = false := by
  intro l
  induction l with
  | nil =>
    intro n hmem
    cases n <;> simp [loadRecentLoop] at hmem
  | cons o rest ih =>
    intro n hmem
    cases n with
    | zero => simp [loadRecentLoop] at hmem
    | succ m =>
      cases o with
      | none =>
        exact ih (m + 1) (by simpa [loadRecentLoop] using hmem)
      | some a =>
        by_cases hr : a.was_regression
        · simp only [loadRecentLoop, if_pos hr] at hmem
          exact ih (m + 1) hmem
        · simp only [loadRecentLoop, if_neg hr] at hmem
          rcases List.mem_cons.mp hmem with rfl | hmem'
          · simpa using hr
          · exact ih m hmem'

/-- The loop collects at most `n` records. -/
theorem loadRecentLoop_length :
    ∀ (l : List (Option BaselineData)) (n : ℕ),
      (loadRecentLoop l n).length ≤ n := by
  intro l
  induction l with
  | nil =>
    intro n
    cases n <;> simp [loadRecentLoop]
  | cons o rest ih =>
    intro n
    cases n with
    | zero => simp [loadRecentLoop]
    | succ m =>
      cases o with
      | none => simpa [loadRecentLoop] using ih (m + 1)
      | some a =>
        by_cases hr : a.was_regression
        · simpa [loadRecentLoop, if_pos hr] using ih (m + 1)
        · simp only [loadRecentLoop, if_neg hr, List.length_cons]
          exact Nat.succ_le_succ (ih m)

/-- The loop output is a sublist of the successfully parsed records, in
the same (newest-first) order. -/
theorem loadRecentLoop_sublist :
    ∀ (l : List (Option BaselineData)) (n : ℕ),
      List.Sublist (loadRecentLoop l n) (l.filterMap id) := by
  intro l
  induction l with
  | nil =>
    intro n
    cases n <;> simp [loadRecentLoop]
  | cons o rest ih =>
    intro n
    cases n with
    | zero => simp [loadRecentLoop]
    | succ m =>
      cases o with
      | none => simpa [loadRecentLoop] using ih (m + 1)
      | some a =>
        by_cases hr : a.was_regression
        · simp only [loadRecentLoop, if_pos hr, List.filterMap_cons_some,
            id_eq]
          exact (ih (m + 1)).cons a
        · simp only [loadRecentLoop, if_neg hr, List.filterMap_cons_some,
            id_eq]
          exact (ih m).cons₂ a

/-- Unparseable entries are transparent to the collection loop. -/
theorem loadRecentLoop_filterMap :
    ∀ (l : List (Option BaselineData)) (n : ℕ),
      loadRecentLoop ((l.filterMap id).map some) n = loadRecentLoop l n := by
  intro l
  induction l with
  | nil =>
    intro n
    cases n <;> simp [loadRecentLoop]
  | cons o rest ih =>
    intro n
    cases n with
    | zero => simp [loadRecentLoop]
    | succ m =>
      cases o with
      | none => simpa [loadRecentLoop] using ih (m + 1)
      | some a =>
        by_cases hr : a.was_regression
        · simp only [List.filterMap_cons_some, id_eq, List.map_cons,
            loadRecentLoop, if_pos hr]
          exact ih (m + 1)
        · simp only [List.filterMap_cons_some, id_eq, List.map_cons,
            loadRecentLoop, if_neg hr]
          rw [ih m]

/-! ## Claims C5 and C6 -/

/-- C5: `calculate_statistics` on the empty sample list returns the all-zero
summary with `sample_count = 0` (the early-return branch; no panic). -/
theorem calculate_statistics_nil :
    (calculate_statistics []).mean = 0 ∧
    (calculate_statistics []).median = 0 ∧
    (calculate_statistics []).p90 = 0 ∧
    (calculate_statistics []).p99 = 0 ∧
    (calculate_statistics []).std_dev = 0 ∧
    (calculate_statistics []).variance = 0 ∧
    (calculate_statistics []).min = 0 ∧
    (calculate_statistics []).max = 0 ∧
    (calculate_statistics []).sample_count = 0 := by
  refine ⟨rfl, rfl, rfl, rfl, rfl, rfl, rfl, rfl, rfl⟩

/-- C6: `z_score` returns 0 whenever the standard deviation is below
`1e-10`; in particular it never divides by zero. -/
theorem z_score_small_stddev (v m s : ℝ) (h : s < 1e-10) :
    Stats.z_score v m s = 0 := by
  unfold Stats.z_score
  exact if_pos h

/-- Witness for C6 at `v = 5`, `m = 3`, `s = 0`. -/
theorem z_score_small_stddev_witness :
    (0 : ℝ) < 1e-10 ∧ Stats.z_score 5 3 0 = 0 :=
  ⟨by norm_num, z_score_small_stddev 5 3 0 (by norm_num)⟩

/-! ## Claim C7 -/

/-- C7: for a fixed non-empty history and a fixed observation,
`bayesian_change_point_probability` is monotone non-decreasing in the
hazard rate: the likelihood term does not depend on the hazard rate, the
data-evidence weight `1 - min(likelihood, 1)` is non-negative, and the
blend is affine in the hazard rate with non-negative coefficients. -/
theorem change_point_probability_mono_hazard (x : ℝ) (historical : List ℝ)
    (h1 h2 : ℝ) (hne : historical ≠ []) (h1nn : 0 ≤ h1) (hle : h1 ≤ h2) :
    bayesian_change_point_probability x historical h1 ≤
      bayesian_change_point_probability x historical h2 := by
  simp only [bayesian_change_point_probability, BayesianCPD.update,
    if_neg hne]
  have hu : 0 ≤ 1 - min (student_t_likelihood x historical) 1 := by
    have := min_le_right (student_t_likelihood x historical) (1 : ℝ)
    linarith
  refine min_le_min ?_ le_rfl
  nlinarith [hu, hle, h1nn]

/-- Witness for C7: history `[1, 1, 1]`, observation `1.2`, hazard rates
`0.05 ≤ 0.3`. -/
theorem change_point_probability_mono_hazard_witness :
    (([(1 : ℝ), 1, 1] ≠ []) ∧ (0 : ℝ) ≤ 0.05 ∧ (0.05 : ℝ) ≤ 0.3) ∧
    bayesian_change_point_probability 1.2 [1, 1, 1] 0.05 ≤
      bayesian_change_point_probability 1.2 [1, 1, 1] 0.3 :=
  ⟨⟨by simp, by norm_num, by norm_num⟩,
   change_point_probability_mono_hazard 1.2 [1, 1, 1] 0.05 0.3
     (by simp) (by norm_num) (by norm_num)⟩

/-! ## Claim C2 -/

/-- C2: for every stored history (the chronologically sorted per-file parse
outcomes) and every count, `load_recent_baselines` returns only records
with `was_regression = false`, returns at most `count` records, and the
result is a sublist of the chronological (oldest-first) sequence of valid
records — i.e. it is in chronological order oldest-first. -/
theorem load_recent_baselines_spec (runs : List (Option BaselineData))
    (count : ℕ) :
    (∀ b ∈ load_recent_baselines runs count, b.was_regression = false) ∧
    (load_recent_baselines runs count).length ≤ count ∧
    List.Sublist (load_recent_baselines runs count) (runs.filterMap id) := by
  refine ⟨?_, ?_, ?_⟩
  · intro b hb
    exact loadRecentLoop_no_regression runs.reverse count
      (List.mem_reverse.mp hb)
  · simpa [load_recent_baselines] using
      loadRecentLoop_length runs.reverse count
  · have h := (loadRecentLoop_sublist runs.reverse count).reverse
    rwa [List.filterMap_reverse, List.reverse_reverse] at h

/-! ## Claim C10 -/

/-- C10: `load_recent_baselines` silently excludes every run file whose
content fails to parse (`none` entries) and still returns the remaining
valid records: the result equals the result on the history with the
unparseable files removed. In the source, a parse failure is caught by
`if let Ok(..)` and never surfaced as an error. -/
theorem load_recent_baselines_skips_unparseable
    (runs : List (Option BaselineData)) (count : ℕ) :
    load_recent_baselines runs count =
      load_recent_baselines ((runs.filterMap id).map some) count := by
  unfold load_recent_baselines
  congr 1
  rw [← loadRecentLoop_filterMap runs.reverse count]
  congr 1
  rw [← List.map_reverse, List.filterMap_reverse]

/-! ## Claim C8 -/

/-- C8: converting a `BenchResult` to a stored record with
`BaselineData::from_bench_result` and back with `to_bench_result`
reproduces the benchmark name, module, iteration count, number of raw
samples (both the `samples` count field and the timing-list length), and
all percentile fields unchanged. -/
theorem baseline_round_trip (result : BenchResult) (machine_id : String)
    (was_regression : Bool) (now : String) :
    ((BaselineData.from_bench_result result machine_id was_regression
        now).to_bench_result).name = result.name ∧
    ((BaselineData.from_bench_result result machine_id was_regression
        now).to_bench_result).module = result.module ∧
    ((BaselineData.from_bench_result result machine_id was_regression
        now).to_bench_result).iterations = result.iterations ∧
    ((BaselineData.from_bench_result result machine_id was_regression
        now).to_bench_result).all_timings.length =
      result.all_timings.length ∧
    ((BaselineData.from_bench_result result machine_id was_regression
        now).to_bench_result).samples = result.all_timings.length ∧
    ((BaselineData.from_bench_result result machine_id was_regression
        now).to_bench_result).percentiles = result.percentiles := by
  refine ⟨rfl, rfl, rfl, ?_, ?_, rfl⟩ <;>
    simp [BaselineData.from_bench_result, BaselineData.to_bench_result]

/-! ## Claim C9 -/

/-- C9: `validate_measurement_params` accepts exactly the sample counts
from 1 to 1,000,000 inclusive; 0 and anything above 1,000,000 are
rejected with an error. -/
theorem validate_measurement_params_ok_iff (samples : ℕ) :
    validate_measurement_params samples = Except.ok () ↔
      1 ≤ samples ∧ samples ≤ 1000000 := by
  unfold validate_measurement_params
  split_ifs with h1 h2
  · simp
    omega
  · simp
    omega
  · simp
    omega

/-- Witness for C9 at `samples = 100`. -/
theorem validate_measurement_params_ok_iff_witness :
    validate_measurement_params 100 = Except.ok () :=
  (validate_measurement_params_ok_iff 100).mpr (by decide)

/-! ## Claim C4 -/

/-- C4: for every non-empty sample list, the computed statistics satisfy
`median ≤ p90 ≤ p99` and `min ≤ median ≤ max`: all five fields index into
the same sorted copy of the samples at monotone, clamped indices. -/
theorem calculate_statistics_order (samples : List ℕ) (h : samples ≠ []) :
    (calculate_statistics samples).median ≤
        (calculate_statistics samples).p90 ∧
    (calculate_statistics samples).p90 ≤
        (calculate_statistics samples).p99 ∧
    (calculate_statistics samples).min ≤
        (calculate_statistics samples).median ∧
    (calculate_statistics samples).median ≤
        (calculate_statistics samples).max := by
  have hn : samples.length ≠ 0 := fun hh => h (List.length_eq_zero.mp hh)
  have hpos : 0 < samples.length := Nat.pos_of_ne_zero hn
  have hs : (samples.insertionSort (· ≤ ·)).Sorted (· ≤ ·) :=
    List.sorted_insertionSort _ samples
  have hlen : (samples.insertionSort (· ≤ ·)).length = samples.length :=
    (List.perm_insertionSort _ samples).length_eq
  unfold calculate_statistics
  simp only [if_neg hn]
  refine ⟨?_, ?_, ?_, ?_⟩
  · exact sorted_getD_mono hs
      (min_le_min
        (Nat.div_le_div_right (Nat.mul_le_mul le_rfl (by norm_num)))
        le_rfl)
      (by rw [hlen]; omega)
  · exact sorted_getD_mono hs
      (min_le_min
        (Nat.div_le_div_right (Nat.mul_le_mul le_rfl (by norm_num)))
        le_rfl)
      (by rw [hlen]; omega)
  · exact sorted_getD_mono hs (Nat.zero_le _) (by rw [hlen]; omega)
  · exact sorted_getD_mono hs (min_le_right _ _) (by rw [hlen]; omega)

/-! ## Claims C1 and C3: regression verdicts -/

/-- `z_critical` is positive at every confidence level. -/
theorem z_critical_pos (c : ℝ) : 0 < z_critical c := by
  unfold z_critical
  split_ifs <;> norm_num

/-- Test fixture: a statistics summary with mean `m` (the regression
detector only reads the stored mean). -/
noncomputable def statWithMean (m : ℕ) : Statistics :=
  { mean := m, median := m, p90 := m, p99 := m, std_dev := 0, variance := 0,
    min := m, max := m, sample_count := 1 }

/-- Test fixture: a stored baseline record whose per-run mean is `m` ns. -/
noncomputable def baselineWithMean (m : ℕ) : BaselineData :=
  { benchmark_name := "bench", module := "mod", timestamp := "2024",
    samples := [m], statistics := statWithMean m, iterations := 1,
    machine_id := "machine", cpu_samples := [], percentiles := none,
    was_regression := false }

/-- Test fixture: a current run whose mean is `m` nanoseconds. -/
noncomputable def currentWithMean (m : ℕ) : BenchResult :=
  { name := "bench", module := "mod", samples := 1,
    percentiles := { p50 := m, p90 := m, p99 := m, mean := m },
    iterations := 1, all_timings := [m], cpu_samples := [],
    warmup_ms := none, warmup_iterations := none }

/-- C3: for every non-empty history, a regression verdict implies both that
the current mean exceeds the one-tailed upper confidence bound
`hist_mean + z_critical·hist_stddev` and that the percentage change
exceeds the practical threshold; and a current mean at or below the
historical mean is never flagged. -/
theorem detect_regression_requires_significance (current : BenchResult)
    (historical : List BaselineData)
    (threshold confidence_level cp_threshold hazard_rate : ℝ)
    (hne : historical ≠ []) :
    ((detect_regression_with_cpd current historical threshold
        confidence_level cp_threshold hazard_rate).is_regression →
      ((current.percentiles.mean : ℝ) >
          Stats.mean (histMeans historical) +
            z_critical confidence_level *
              Stats.standard_deviation (histMeans historical) ∧
        ((current.percentiles.mean : ℝ) -
              Stats.mean (histMeans historical)) /
            Stats.mean (histMeans historical) * 100 > threshold)) ∧
    ((current.percentiles.mean : ℝ) ≤ Stats.mean (histMeans historical) →
      ¬ (detect_regression_with_cpd current historical threshold
          confidence_level cp_threshold hazard_rate).is_regression) := by
  unfold detect_regression_with_cpd
  simp only [if_neg hne]
  constructor
  · intro hreg
    split_ifs at hreg with h5 h2
    · exact hreg
    · exact ⟨hreg.1, hreg.2.1⟩
  · intro hle hreg
    have hsd : 0 ≤ Stats.standard_deviation (histMeans historical) :=
      Real.sqrt_nonneg _
    have hzc : 0 < z_critical confidence_level := z_critical_pos _
    have hupper : (current.percentiles.mean : ℝ) ≤
        Stats.mean (histMeans historical) +
          z_critical confidence_level *
            Stats.standard_deviation (histMeans historical) := by
      nlinarith
    split_ifs at hreg with h5 h2
    · exact (not_lt.mpr hupper) hreg.1
    · exact (not_lt.mpr hupper) hreg.1

/-- Witness for C3: a single-record history with mean 1,000,000 ns and a
current mean of 500,000 ns (faster than baseline). -/
theorem detect_regression_requires_significance_witness :
    (([baselineWithMean 1000000] : List BaselineData) ≠ []) ∧
    (((detect_regression_with_cpd (currentWithMean 500000)
        [baselineWithMean 1000000] 5 0.95 0.8 0.1).is_regression →
      (((currentWithMean 500000).percentiles.mean : ℝ) >
          Stats.mean (histMeans [baselineWithMean 1000000]) +
            z_critical 0.95 *
              Stats.standard_deviation
                (histMeans [baselineWithMean 1000000]) ∧
        (((currentWithMean 500000).percentiles.mean : ℝ) -
              Stats.mean (histMeans [baselineWithMean 1000000])) /
            Stats.mean (histMeans [baselineWithMean 1000000]) * 100 > 5)) ∧
    (((currentWithMean 500000).percentiles.mean : ℝ) ≤
        Stats.mean (histMeans [baselineWithMean 1000000]) →
      ¬ (detect_regression_with_cpd (currentWithMean 500000)
          [baselineWithMean 1000000] 5 0.95 0.8 0.1).is_regression)) :=
  ⟨by simp,
   detect_regression_requires_significance (currentWithMean 500000)
     [baselineWithMean 1000000] 5 0.95 0.8 0.1 (by simp)⟩

/-- C1 as stated fails on the code: when every historical mean is exactly
1,000,000 ns the window stddev is exactly 0, so the `z_score` guard
returns 0, the weak-evidence tier `|z| ≤ 2` applies, and
`detect_regression_with_cpd` returns is_regression = false even for a
current mean of 2,000,000 ns. -/
theorem detect_regression_tier1_counterexample :
    ¬ (detect_regression_with_cpd (currentWithMean 2000000)
        [baselineWithMean 1000000, baselineWithMean 1000000,
          baselineWithMean 1000000] 5 0.95 0.8 0.1).is_regression := by
  have hm : Stats.mean [(1000000 : ℝ), 1000000, 1000000] = 1000000 := by
    unfold Stats.mean
    rw [if_neg (by simp)]
    norm_num
  have hv : Stats.variance [(1000000 : ℝ), 1000000, 1000000] = 0 := by
    unfold Stats.variance
    rw [if_neg (by norm_num), hm]
    norm_num
  have hsd :
      Stats.standard_deviation [(1000000 : ℝ), 1000000, 1000000] = 0 := by
    unfold Stats.standard_deviation
    rw [hv, Real.sqrt_zero]
  have hz : Stats.z_score 2000000 1000000 0 = 0 := by
    norm_num [Stats.z_score]
  intro hreg
  unfold detect_regression_with_cpd at hreg
  rw [if_neg (by simp)] at hreg
  simp only [histMeans, baselineWithMean, statWithMean, currentWithMean,
    List.map_cons, List.map_nil] at hreg
  norm_num [hm, hsd, hz, abs_zero] at hreg

/-- C1 amended: the same scenario with a historical window that is tightly
clustered but not perfectly degenerate — means 999,999 and 1,000,001 ns,
so the window stddev is 1 ns — does produce is_regression = true for a
current mean of 2,000,000 ns under the same parameters (z = 1,000,000,
tier 1 applies, both significance conditions hold). -/
theorem detect_regression_tier1_amended :
    (detect_regression_with_cpd (currentWithMean 2000000)
        [baselineWithMean 999999, baselineWithMean 1000001]
        5 0.95 0.8 0.1).is_regression := by
  have hm : Stats.mean [(999999 : ℝ), 1000001] = 1000000 := by
    unfold Stats.mean
    rw [if_neg (by simp)]
    norm_num
  have hv : Stats.variance [(999999 : ℝ), 1000001] = 1 := by
    unfold Stats.variance
    rw [if_neg (by norm_num), hm]
    norm_num
  have hsd : Stats.standard_deviation [(999999 : ℝ), 1000001] = 1 := by
    unfold Stats.standard_deviation
    rw [hv, Real.sqrt_one]
  have hz : Stats.z_score 2000000 1000000 1 = 1000000 := by
    norm_num [Stats.z_score]
  have habs : |(1000000 : ℝ)| = 1000000 := abs_of_nonneg (by norm_num)
  have hzc : z_critical (19 / 20) = 1.645 := by
    unfold z_critical
    rw [if_neg (by rw [abs_of_nonneg (by norm_num)]; norm_num),
      if_pos (by rw [abs_of_nonneg (by norm_num)]; norm_num)]
  unfold detect_regression_with_cpd
  rw [if_neg (by simp)]
  simp only [histMeans, baselineWithMean, statWithMean, currentWithMean,
    List.map_cons, List.map_nil]
  norm_num [hm, hsd, hz, habs, hzc]

/-- Witness for C4 on the sample list `[3, 1, 2]`. -/
theorem calculate_statistics_order_witness :
    (([3, 1, 2] : List ℕ) ≠ []) ∧
    ((calculate_statistics [3, 1, 2]).median ≤
        (calculate_statistics [3, 1, 2]).p90 ∧
    (calculate_statistics [3, 1, 2]).p90 ≤
        (calculate_statistics [3, 1, 2]).p99 ∧
    (calculate_statistics [3, 1, 2]).min ≤
        (calculate_statistics [3, 1, 2]).median ∧
    (calculate_statistics [3, 1, 2]).median ≤
        (calculate_statistics [3, 1, 2]).max) :=
  ⟨by decide, calculate_statistics_order [3, 1, 2] (by decide)⟩

end SimpleBench
